import Mathlib

/-!
Verification development for droppy's server.js, the directory-state
synchronization engine of a small file-sharing service.  The definitions
below are a shallow embedding of the relevant functions of server.js:
the snapshot builder (prepareFileList), the debounce combinator, the
websocket broadcast (SendUpdate), the HTTP mutation handlers
(handleDeleteRequest, handleUploadRequest, handleFileRequest), the
startup error handler, the size formatter (convertToSI), and the
CREATE_FOLDER socket handler.
-/

/-! ## Data model -/

/-- Result of fs.statSync on one directory entry, as far as server.js
inspects it: the stat may throw (err), or report a plain file, a
directory, or something that is neither (a fifo, socket, dangling
symlink target, ...), each carrying stats.size. -/
inductive StatResult where
  | err : StatResult
  | file (size : Nat) : StatResult
  | dir (size : Nat) : StatResult
  | other (size : Nat) : StatResult
deriving DecidableEq, Repr

/-- One value stored in the fileList object by prepareFileList:
the object literal with fields name, type and size built at
server.js line 259. -/
structure FileEntry where
  name : String
  type : String
  size : Nat
deriving DecidableEq, Repr

/-! ## Snapshot builder (prepareFileList, server.js lines 244-269)

The readdir callback loops over the listing with `var name = files[i], type;`.
`var` is function-scoped in JavaScript, so `type` is NOT reset between
iterations: when stats.isFile() and stats.isDirectory() are both false the
guard `type == "f" || type == "d"` is evaluated against the value `type`
kept from an earlier iteration.  When statSync throws, the catch block
skips the entry (and leaves `type` unchanged).  The embedding threads the
current value of `type` (none = still undefined) through the loop. -/

/-- The body of the for-loop of prepareFileList's readdir callback.
`ty` is the current value of the function-scoped variable `type`,
`i` the loop index; the result is the association list of index/entry
pairs stored into the fileList object. -/
def buildLoop : Option String → Nat → List (String × StatResult) → List (Nat × FileEntry)
  | _, _, [] => []
  | ty, i, (nm, st) :: rest =>
    match st with
    | StatResult.err => buildLoop ty (i + 1) rest
    | StatResult.file sz => (i, ⟨nm, "f", sz⟩) :: buildLoop (some "f") (i + 1) rest
    | StatResult.dir sz => (i, ⟨nm, "d", sz⟩) :: buildLoop (some "d") (i + 1) rest
    | StatResult.other sz =>
      match ty with
      | some t => (i, ⟨nm, t, sz⟩) :: buildLoop (some t) (i + 1) rest
      | none => buildLoop none (i + 1) rest

/-- The fileList object produced by one completed run of the readdir
callback, for a given directory listing (entry name paired with its
stat outcome).  `type` starts out undefined on each call of run(). -/
def buildList (listing : List (String × StatResult)) : List (Nat × FileEntry) :=
  buildLoop none 0 listing

/-! ## Debounce (server.js lines 331-345) and prepareFileList's use of it

server.js line 268 reads `debounce(run(),readInterval)`: JavaScript
evaluates the argument expression `run()` first, so the rebuild runs
immediately at call time, and `debounce` is handed the resulting
`undefined`.  The closure debounce returns (which is what would arm the
timer when invoked) is discarded without ever being called. -/

/-- The configured debounce window, server.js line 18. -/
def readInterval : Nat := 200

/-- State of one closure returned by debounce: its wait interval, the
immediate flag, and the pending timer (the absolute time at which
`later` is scheduled to fire, none when no timer is armed). -/
structure DebounceClosure where
  wait : Nat
  immediate : Bool
  timeout : Option Nat
deriving DecidableEq, Repr

/-- Invoking the closure returned by debounce at time t: the existing
timer is cleared and a new one is armed for t + wait; with immediate
set and no pending timer the wrapped function also runs now (second
component: did the wrapped function execute during this invocation). -/
def debounceCall (c : DebounceClosure) (t : Nat) : DebounceClosure × Bool :=
  ({ c with timeout := some (t + c.wait) }, c.immediate && c.timeout == none)

/-- The armed timer firing: the timeout slot is nulled and, in the
non-immediate configuration, the wrapped function runs. -/
def debounceFire (c : DebounceClosure) : DebounceClosure × Bool :=
  ({ c with timeout := none }, !c.immediate)

/-- One call of prepareFileList at time t, as server.js line 268
executes it: evaluating the argument `run()` performs the rebuild at
time t (first component: the timestamps at which rebuilds execute
during this call), and debounce returns a fresh closure with no timer
armed, which the statement discards. -/
def prepareFileListCall (t : Nat) : List Nat × DebounceClosure :=
  ([t], { wait := readInterval, immediate := false, timeout := none })

/-- The rebuild timestamps produced by a sequence of prepareFileList
calls at the given times. -/
def rebuildTimes (calls : List Nat) : List Nat :=
  calls.flatMap (fun t => (prepareFileListCall t).1)

/-! ## The shared fileList variable across a rebuild

run() synchronously executes `fileList = {}` (line 247) and then issues
the asynchronous fs.readdir; only the readdir callback fills the new
object in.  SendUpdate reads the global fileList whenever it runs, so
the value it observes is determined by which of these two steps have
happened. -/

/-- The two state transitions a rebuild applies to the global fileList:
the synchronous reset at the start of run(), and the readdir callback
completing for a given directory listing. -/
inductive FsEvent where
  | rebuildStart : FsEvent
  | readdirDone (listing : List (String × StatResult)) : FsEvent

/-- One property write fileList[i] = e on the object the global
fileList currently holds: the value at key i is overwritten, or the
key is added if absent; no other key is touched.  The object is
represented with its integer-like keys in ascending order, the order
JavaScript enumerates (and JSON.stringify serializes) them in. -/
def setKey : List (Nat × FileEntry) → Nat → FileEntry → List (Nat × FileEntry)
  | [], i, e => [(i, e)]
  | (j, x) :: rest, i, e =>
    if i = j then (i, e) :: rest
    else if i < j then (i, e) :: (j, x) :: rest
    else (j, x) :: setKey rest i e

/-- The readdir callback's loop performing its fileList[i] writes, in
listing order, into the object the global currently holds.  Keys the
loop does not write (e.g. left over from an earlier overlapping
rebuild's callback) survive: line 259 assigns, it never deletes. -/
def setEntries (fl updates : List (Nat × FileEntry)) : List (Nat × FileEntry) :=
  updates.foldl (fun acc p => setKey acc p.1 p.2) fl

/-- Effect of one rebuild step on the global fileList: run()'s reset
rebinds the global to a fresh empty object, and a readdir callback
writes the entries it retains into whatever object the global holds
when it runs (each fileList[i] assignment reads the global binding at
execution time), merging with any keys already present. -/
def stepFileList (fl : List (Nat × FileEntry)) : FsEvent → List (Nat × FileEntry)
  | FsEvent.rebuildStart => []
  | FsEvent.readdirDone listing => setEntries fl (buildList listing)

/-- The value of the global fileList after a sequence of rebuild steps,
starting from the initial empty object of server.js line 16.  A read
(SendUpdate serializing fileList) at any point observes this value. -/
def fileListAfter (events : List FsEvent) : List (Nat × FileEntry) :=
  events.foldl stepFileList []

/-! ## JSON values and the UPDATE_FILES payload (SendUpdate, line 84-86)

SendUpdate emits JSON.stringify(fileList).  fileList is a plain object
(initialised as the object literal at line 16 and reset to one at line
247) whose keys are the listing indices used at line 259, so stringify
serializes it as a JSON object, not an array. -/

/-- JSON value tree, as produced by JSON.stringify. -/
inductive Json where
  | jstr (s : String) : Json
  | jnum (n : Nat) : Json
  | jobj (members : List (String × Json)) : Json
  | jarr (elems : List Json) : Json

/-- Does JSON.stringify render this value as a JSON array. -/
def isArr : Json → Bool
  | Json.jarr _ => true
  | _ => false

/-- Does JSON.stringify render this value as a JSON object. -/
def isObj : Json → Bool
  | Json.jobj _ => true
  | _ => false

/-- Number of members of a serialized JSON object. -/
def memberCount : Json → Nat
  | Json.jobj m => m.length
  | _ => 0

/-- JSON.stringify of one fileList entry: an object with the fields
name, type and size assigned at server.js line 259. -/
def entryJson (e : FileEntry) : Json :=
  Json.jobj [("name", Json.jstr e.name), ("type", Json.jstr e.type), ("size", Json.jnum e.size)]

/-- JSON.stringify of the fileList object: a JSON object keyed by the
decimal rendering of each listing index. -/
def fileListJson (fl : List (Nat × FileEntry)) : Json :=
  Json.jobj (fl.map fun p => (Nat.repr p.1, entryJson p.2))

/-- Checks that a JSON value is an entry object as the spec describes
one: fields name (string), type (the string f or d) and size (number),
in that order. -/
def entryShape : Json → Bool
  | Json.jobj [(k1, Json.jstr _), (k2, Json.jstr t), (k3, Json.jnum _)] =>
    k1 == "name" && k2 == "type" && k3 == "size" && (t == "f" || t == "d")
  | _ => false

/-- Checks that a payload is a JSON object each of whose member values
is a well-shaped entry object. -/
def payloadShape : Json → Bool
  | Json.jobj m => m.all fun p => entryShape p.2
  | _ => false

/-! ## Subscriber broadcast (SendUpdate and setupSockets, lines 84-100) -/

/-- SendUpdate: io.sockets.emit sends the serialized fileList to every
connected socket.  Result: the list of deliveries performed, socket id
paired with the pushed payload. -/
def SendUpdate (subs : List Nat) (fl : List (Nat × FileEntry)) : List (Nat × Json) :=
  subs.map fun s => (s, fileListJson fl)

/-- The REQUEST_UPDATE handler installed in setupSockets (line 91-93):
the socket that sent the message is `requester`, and the handler body
just calls SendUpdate. -/
def onRequestUpdate (requester : Nat) (subs : List Nat) (fl : List (Nat × FileEntry)) :
    List (Nat × Json) :=
  let _ := requester
  SendUpdate subs fl

/-! ## Mutation handlers and their observable actions -/

/-- Observable side effects of the HTTP handlers and the watcher:
response writes, filesystem calls, logging via handleError, a direct
SendUpdate broadcast, and an invocation of prepareFileList (the
debounced rebuild path). -/
inductive ServerAct where
  | writeHead (code : Nat) : ServerAct
  | endRes : ServerAct
  | unlinkCall : ServerAct
  | rmdirCall : ServerAct
  | logErrCall : ServerAct
  | sendUpdateEmit : ServerAct
  | prepareFileListInvoke : ServerAct
deriving DecidableEq, BEq, Repr

/-- The fs.watch callback (createWatcher, lines 73-81): a change or
rename event invokes prepareFileList, whose completion callback calls
SendUpdate; every other event is ignored. -/
def watcherOnEvent (ev : String) : List ServerAct :=
  if ev == "change" || ev == "rename" then
    [ServerAct.prepareFileListInvoke, ServerAct.sendUpdateEmit]
  else []

/-- handleDeleteRequest (lines 187-216).  `readdirErr` is whether the
initial fs.readdir failed; `stat` is the outcome of fs.statSync on the
target path (none or StatResult.err when it throws, e.g. because the
path does not exist).
On a statSync throw the catch block answers 500 and calls SendUpdate
directly; the success path unlinks or rmdirs and answers 200. -/
def handleDeleteRequest (readdirErr : Bool) (stat : Option StatResult) : List ServerAct :=
  if readdirErr then
    [ServerAct.writeHead 500, ServerAct.endRes, ServerAct.logErrCall, ServerAct.sendUpdateEmit]
  else
    match stat with
    | none =>
      [ServerAct.writeHead 500, ServerAct.endRes, ServerAct.logErrCall, ServerAct.sendUpdateEmit]
    | some StatResult.err =>
      [ServerAct.writeHead 500, ServerAct.endRes, ServerAct.logErrCall, ServerAct.sendUpdateEmit]
    | some (StatResult.file _) =>
      [ServerAct.unlinkCall, ServerAct.writeHead 200, ServerAct.endRes]
    | some (StatResult.dir _) =>
      [ServerAct.rmdirCall, ServerAct.writeHead 200, ServerAct.endRes]
    | some (StatResult.other _) =>
      [ServerAct.writeHead 200, ServerAct.endRes]

/-- handleUploadRequest's form error listener (lines 231-234): log the
error, then a direct SendUpdate. -/
def uploadOnError : List ServerAct := [ServerAct.logErrCall, ServerAct.sendUpdateEmit]

/-- handleUploadRequest's form end listener (lines 227-229): a direct
SendUpdate. -/
def uploadOnEnd : List ServerAct := [ServerAct.sendUpdateEmit]

/-! ## handleFileRequest's stat callback (lines 165-185)

On a stat error the callback answers 500, logs, and calls SendUpdate,
but does not return: control falls through to the log line that reads
stats.size.  Node passes undefined for stats when err is set, so that
access throws a TypeError.  The embedding splits the callback into the
error branch and the code after it, composed exactly as in the source. -/

/-- The stats object handed to the fs.stat callback. -/
structure NodeStats where
  size : Nat
deriving DecidableEq, Repr

/-- Observable actions of handleFileRequest's stat callback. -/
inductive FileAct where
  | writeHead (code : Nat) : FileAct
  | endRes : FileAct
  | logErrCall : FileAct
  | sendUpdateEmit : FileAct
  | logSend (size : Nat) : FileAct
  | pipeStream : FileAct
deriving DecidableEq, Repr

/-- The body of `if(err)` at lines 171-176: answer 500, end, log, and
send an update.  No return statement follows. -/
def statCallbackErrBranch : List FileAct :=
  [FileAct.writeHead 500, FileAct.endRes, FileAct.logErrCall, FileAct.sendUpdateEmit]

/-- Lines 177-182, the code after the `if(err)` block: log the send
using stats.size, answer 200, and pipe the file.  With stats undefined
the very first access stats.size throws a TypeError. -/
def statCallbackRest (stats : Option NodeStats) : Except String (List FileAct) :=
  match stats with
  | none => Except.error "TypeError: cannot read size of undefined"
  | some st => Except.ok [FileAct.logSend st.size, FileAct.writeHead 200, FileAct.pipeStream]

/-- The whole fs.stat callback of handleFileRequest: the error branch
when err is set, then unconditionally the rest.  Result: the actions
performed before the callback finished, and the exception that aborted
it, if any. -/
def handleFileStatCallback (err : Bool) (stats : Option NodeStats) :
    List FileAct × Option String :=
  let pre := if err then statCallbackErrBranch else []
  match statCallbackRest stats with
  | Except.error e => (pre, some e)
  | Except.ok acts => (pre ++ acts, none)

/-! ## Startup error handling (lines 52-68, 276-283)

server.on("error") logs a dedicated message for EADDRINUSE and hands
every other error to handleError, which only writes the message and
stack to the log.  Nothing in either path terminates the process. -/

/-- Observable actions at startup-error time. -/
inductive StartAct where
  | logMsg (tag : String) : StartAct
  | exitProc : StartAct
deriving DecidableEq, BEq, Repr

/-- handleError (lines 276-283): log the error's message and stack. -/
def handleErrorActs : List StartAct :=
  [StartAct.logMsg "err.message", StartAct.logMsg "err.stack"]

/-- The server.on("error") listener (lines 60-65), applied to the
error's code string. -/
def serverOnError (code : String) : List StartAct :=
  if code == "EADDRINUSE" then [StartAct.logMsg "Failed to bind to config.port"]
  else handleErrorActs

/-! ## convertToSI (lines 308-327)

Kib/mib/gib/tib are 1024, 1024^2, 1024^3, 1024^4.  Byte counts are
modelled as Nat (the claim concerns non-negative counts, and fs sizes
are non-negative), so the `bytes >= 0` and `bytes >= kib` halves of the
source's range tests hold automatically in their branches; toFixed(2)
is modelled as exact rounding of the quotient to two decimal digits. -/

/-- Two-digit zero-padded decimal rendering of a number below 100. -/
def pad2 (n : Nat) : String :=
  if n < 10 then "0" ++ Nat.repr n else Nat.repr n

/-- JavaScript's (num / den).toFixed(2): the quotient scaled by 100 and
rounded to the nearest integer, printed with two digits after the
decimal point. -/
def toFixed2 (num den : Nat) : String :=
  let scaled := (100 * num + den / 2) / den
  Nat.repr (scaled / 100) ++ "." ++ pad2 (scaled % 100)

/-- convertToSI (lines 308-327): raw bytes below 1 KiB, otherwise the
count divided by the unit of the first matching 1024-based range,
rendered by toFixed(2). -/
def convertToSI (bytes : Nat) : String :=
  if bytes < 1024 then Nat.repr bytes ++ " B"
  else if 1024 ≤ bytes ∧ bytes < 1048576 then toFixed2 bytes 1024 ++ " KiB"
  else if 1048576 ≤ bytes ∧ bytes < 1073741824 then toFixed2 bytes 1048576 ++ " MiB"
  else if 1073741824 ≤ bytes ∧ bytes < 1099511627776 then toFixed2 bytes 1073741824 ++ " GiB"
  else if 1099511627776 ≤ bytes then toFixed2 bytes 1099511627776 ++ " TiB"
  else Nat.repr bytes ++ " B"

/-- The unit suffix convertToSI appends for the divisor 1024 ^ k. -/
def unitSuffix : Nat → String
  | 1 => " KiB"
  | 2 => " MiB"
  | 3 => " GiB"
  | 4 => " TiB"
  | _ => " B"

/-! ## CREATE_FOLDER (lines 94-98)

The socket handler passes config.filesDir + name to fs.mkdir with no
inspection of name.  To state where the created directory lies, paths
are resolved into their segment lists with the usual meaning of the
dot-dot segment. -/

/-- The path handed to fs.mkdir by the CREATE_FOLDER handler: plain
string concatenation of the configured directory and the
client-supplied name. -/
def createFolderPath (filesDir name : String) : String :=
  filesDir ++ name

/-- Splits a path into chunks at every slash. -/
def segsAux : List Char → List Char → List String
  | [], cur => [String.mk cur.reverse]
  | c :: rest, cur =>
    if c = '/' then String.mk cur.reverse :: segsAux rest []
    else segsAux rest (c :: cur)

/-- The meaningful segments of a path: the slash-separated chunks with
empty and single-dot chunks dropped. -/
def splitSegs (p : String) : List String :=
  (segsAux p.toList []).filter fun s => !(s == "") && !(s == ".")

/-- Resolves dot-dot segments: each one removes the segment before it. -/
def resolveSegs (segs : List String) : List String :=
  segs.foldl (fun acc s => if s == ".." then acc.dropLast else acc ++ [s]) []

/-- A path's resolved segment list. -/
def resolvePath (p : String) : List String :=
  resolveSegs (splitSegs p)

/-- Whether the first resolved path is an ancestor of (or equal to) the
second: its segments lead the second's. -/
def underDir : List String → List String → Bool
  | [], _ => true
  | _ :: _, [] => false
  | b :: bs, c :: cs => b == c && underDir bs cs

/-! ## Helper lemmas -/

/-- pad2 always renders exactly two characters for inputs below 100. -/
lemma pad2_length : ∀ m < 100, (pad2 m).length = 2 := by decide

/-- Every entry the readdir-callback loop retains carries the type
string f or d, provided the loop's type variable currently holds
undefined, f or d (which is an invariant of the loop). -/
lemma buildLoop_type_fd (listing : List (String × StatResult)) :
    ∀ ty i, ty = none ∨ ty = some "f" ∨ ty = some "d" →
      ((buildLoop ty i listing).all fun p => p.2.type == "f" || p.2.type == "d") = true := by
  induction listing with
  | nil => intro ty i _; rfl
  | cons hd rest ih =>
    intro ty i h
    obtain ⟨nm, st⟩ := hd
    cases st with
    | err => simpa [buildLoop] using ih ty (i + 1) h
    | file sz =>
      simp only [buildLoop, List.all_cons]
      simpa using ih (some "f") (i + 1) (Or.inr (Or.inl rfl))
    | dir sz =>
      simp only [buildLoop, List.all_cons]
      simpa using ih (some "d") (i + 1) (Or.inr (Or.inr rfl))
    | other sz =>
      rcases h with h | h | h
      · subst h
        simpa [buildLoop] using ih none (i + 1) (Or.inl rfl)
      · subst h
        simp only [buildLoop, List.all_cons]
        simpa using ih (some "f") (i + 1) (Or.inr (Or.inl rfl))
      · subst h
        simp only [buildLoop, List.all_cons]
        simpa using ih (some "d") (i + 1) (Or.inr (Or.inr rfl))

/-- Writing a key larger than every key present appends the pair. -/
lemma setKey_append (acc : List (Nat × FileEntry)) (i : Nat) (e : FileEntry)
    (h : ∀ p ∈ acc, p.1 < i) : setKey acc i e = acc ++ [(i, e)] := by
  induction acc with
  | nil => rfl
  | cons hd tl ih =>
    obtain ⟨j, x⟩ := hd
    have hj : j < i := h (j, x) (List.mem_cons_self _ _)
    simp only [setKey]
    rw [if_neg (by omega), if_neg (by omega),
      ih fun p hp => h p (List.mem_cons_of_mem _ hp)]
    simp

/-- Performing a batch of writes whose first key exceeds every key
present starts by appending that first pair. -/
lemma setEntries_cons (acc : List (Nat × FileEntry)) (i : Nat) (e : FileEntry)
    (tail : List (Nat × FileEntry)) (h : ∀ p ∈ acc, p.1 < i) :
    setEntries acc ((i, e) :: tail) = setEntries (acc ++ [(i, e)]) tail := by
  simp only [setEntries, List.foldl_cons]
  rw [setKey_append acc i e h]

/-- The readdir callback's writes, applied to an object whose keys are
all below the loop's starting index, append the retained entries in
listing order: the loop writes strictly increasing indices. -/
lemma setEntries_buildLoop (listing : List (String × StatResult)) :
    ∀ ty i acc, (∀ p ∈ acc, p.1 < i) →
      setEntries acc (buildLoop ty i listing) = acc ++ buildLoop ty i listing := by
  induction listing with
  | nil => intro ty i acc _; simp [setEntries, buildLoop]
  | cons hd rest ih =>
    intro ty i acc h
    obtain ⟨nm, st⟩ := hd
    have hsucc : ∀ p ∈ acc, p.1 < i + 1 := fun p hp => Nat.lt_succ_of_lt (h p hp)
    have hpush : ∀ e : FileEntry, ∀ p ∈ acc ++ [(i, e)], p.1 < i + 1 := by
      intro e p hp
      rcases List.mem_append.mp hp with hp | hp
      · exact Nat.lt_succ_of_lt (h p hp)
      · simp only [List.mem_singleton] at hp
        subst hp
        exact Nat.lt_succ_self i
    cases st with
    | err => simpa [buildLoop] using ih ty (i + 1) acc hsucc
    | file sz =>
      simp only [buildLoop]
      rw [setEntries_cons acc i _ _ h, ih (some "f") (i + 1) _ (hpush _)]
      simp
    | dir sz =>
      simp only [buildLoop]
      rw [setEntries_cons acc i _ _ h, ih (some "d") (i + 1) _ (hpush _)]
      simp
    | other sz =>
      cases ty with
      | none => simpa [buildLoop] using ih none (i + 1) acc hsucc
      | some t =>
        simp only [buildLoop]
        rw [setEntries_cons acc i _ _ h, ih (some t) (i + 1) _ (hpush _)]
        simp

/-- all over a mapped list tests the composite predicate. -/
lemma all_map_comp {A B : Type} (f : A → B) (p : B → Bool) (l : List A) :
    (l.map f).all p = l.all fun a => p (f a) := by
  induction l with
  | nil => rfl
  | cons hd tl ih => simp [ih]

/-- entryShape accepts exactly the entry objects whose type field is f
or d. -/
lemma entryShape_entryJson (e : FileEntry) :
    entryShape (entryJson e) = (e.type == "f" || e.type == "d") := by
  simp [entryShape, entryJson]

/-! ## Claim theorems -/

/-- Claim C1: the spec asks for a trailing-edge debounce (one rebuild
per burst, no sooner than readInterval after the last call), but
server.js line 268 evaluates run() as an argument to debounce, so every
prepareFileList call executes a rebuild immediately and the debounced
wrapper is discarded with no timer armed: two calls at t = 0 and t = 50
produce two rebuilds, at times 0 and 50, both sooner than
50 + readInterval. -/
theorem prepareFileList_rebuild_per_call :
    rebuildTimes [0, 50] = [0, 50] ∧
    (rebuildTimes [0, 50]).length = 2 ∧
    (prepareFileListCall 0).2.timeout = none ∧
    (prepareFileListCall 50).2.timeout = none :=
  ⟨rfl, rfl, rfl, rfl⟩

/-- Claim C2 counterexample: after the readdir callback publishes the
snapshot containing a.txt, the very next rebuild's synchronous reset
makes a read observe the empty fileList, which is neither that snapshot
nor any later one (none was built), so a published snapshot is not what
every subsequent read returns. -/
theorem fileList_read_during_rebuild_empty :
    fileListAfter [FsEvent.readdirDone [("a.txt", StatResult.file 10)]] =
      [(0, ⟨"a.txt", "f", 10⟩)] ∧
    fileListAfter [FsEvent.readdirDone [("a.txt", StatResult.file 10)],
      FsEvent.rebuildStart] = [] ∧
    ([] : List (Nat × FileEntry)) ≠ [(0, ⟨"a.txt", "f", 10⟩)] :=
  ⟨rfl, rfl, by decide⟩

/-- Claim C2 as amended: the file list is neither immutable once
published nor monotone.  A rebuild rebinds the shared fileList to a
fresh empty object at run() start, so a read between that reset and
the readdir callback observes the empty partially-built list; the
callback then writes its entries by listing index into whatever object
the global currently holds without deleting existing keys, so a reset
immediately followed by its own callback publishes exactly that build,
while with overlapping rebuilds (reset, reset, first callback, second
callback) entries of the earlier callback at indices the later listing
does not reach survive in the published list as stale entries. -/
theorem fileList_reset_then_merge :
    (∀ pre, fileListAfter (pre ++ [FsEvent.rebuildStart]) = []) ∧
    (∀ pre listing,
      fileListAfter (pre ++ [FsEvent.rebuildStart, FsEvent.readdirDone listing]) =
        buildList listing) ∧
    fileListAfter [FsEvent.rebuildStart, FsEvent.rebuildStart,
      FsEvent.readdirDone
        [("a.txt", StatResult.file 10), ("b.txt", StatResult.file 20)],
      FsEvent.readdirDone [("c.txt", StatResult.file 30)]] =
      [(0, ⟨"c.txt", "f", 30⟩), (1, ⟨"b.txt", "f", 20⟩)] := by
  refine ⟨?_, ?_, rfl⟩
  · intro pre
    simp [fileListAfter, List.foldl_append, stepFileList]
  · intro pre listing
    simp only [fileListAfter, List.foldl_append, List.foldl_cons, List.foldl_nil,
      stepFileList]
    simpa [buildList] using
      setEntries_buildLoop listing none 0 [] (by intro p hp; cases hp)

/-- Claim C3 counterexample: with subscribers 1 and 2 connected and
subscriber 1 sending REQUEST_UPDATE, the handler pushes UPDATE_FILES to
subscriber 2 as well, because its body calls SendUpdate, which emits to
io.sockets, the set of all connected sockets. -/
theorem request_update_pushes_other_subscriber :
    onRequestUpdate 1 [1, 2] [(0, ⟨"a.txt", "f", 10⟩)] =
      [(1, fileListJson [(0, ⟨"a.txt", "f", 10⟩)]),
       (2, fileListJson [(0, ⟨"a.txt", "f", 10⟩)])] ∧
    ((onRequestUpdate 1 [1, 2] [(0, ⟨"a.txt", "f", 10⟩)]).map Prod.fst).contains 2 = true :=
  ⟨rfl, rfl⟩

/-- Claim C3 as amended: handling REQUEST_UPDATE broadcasts exactly one
UPDATE_FILES push carrying the serialized current fileList to every
registered subscriber, independently of which subscriber requested. -/
theorem request_update_broadcasts_all (requester : Nat) (subs : List Nat)
    (fl : List (Nat × FileEntry)) :
    (onRequestUpdate requester subs fl).map Prod.fst = subs ∧
    (onRequestUpdate requester subs fl).map Prod.snd =
      List.replicate subs.length (fileListJson fl) := by
  constructor
  · simp [onRequestUpdate, SendUpdate, List.map_map, Function.comp_def]
  · simp [onRequestUpdate, SendUpdate, List.map_map, Function.comp_def, List.map_const']

/-- Claim C4 counterexample: a delete of a nonexistent path (readdir
succeeds, statSync throws) answers 500 and calls SendUpdate directly;
the handler never invokes prepareFileList, so no snapshot rebuild and
no pass through the debounce path occurs, unlike the watcher's
handling of a filesystem-observed change. -/
theorem delete_missing_no_rebuild :
    handleDeleteRequest false none =
      [ServerAct.writeHead 500, ServerAct.endRes, ServerAct.logErrCall,
       ServerAct.sendUpdateEmit] ∧
    (handleDeleteRequest false none).contains ServerAct.prepareFileListInvoke = false ∧
    (watcherOnEvent "change").contains ServerAct.prepareFileListInvoke = true :=
  ⟨rfl, rfl, rfl⟩

/-- Claim C4 as amended: a failed delete (nonexistent path or readdir
failure) and a failed upload each trigger exactly one direct SendUpdate
broadcast of the existing in-memory file list; no snapshot rebuild
occurs and the debounce path is not involved. -/
theorem failed_mutation_single_direct_broadcast :
    (∀ readdirErr : Bool,
      (handleDeleteRequest readdirErr none).count ServerAct.sendUpdateEmit = 1 ∧
      (handleDeleteRequest readdirErr none).contains ServerAct.prepareFileListInvoke = false) ∧
    uploadOnError.count ServerAct.sendUpdateEmit = 1 ∧
    uploadOnError.contains ServerAct.prepareFileListInvoke = false := by
  refine ⟨?_, rfl, rfl⟩
  intro readdirErr
  cases readdirErr <;> exact ⟨rfl, rfl⟩

/-- Claim C5 counterexample: the UPDATE_FILES payload for a directory
holding a file and a subdirectory is a JSON object with two members,
not a JSON array, because fileList is a plain object keyed by listing
indices and JSON.stringify serializes it as an object. -/
theorem payload_not_array :
    isArr (fileListJson (buildList
      [("a.txt", StatResult.file 10), ("sub", StatResult.dir 0)])) = false ∧
    isObj (fileListJson (buildList
      [("a.txt", StatResult.file 10), ("sub", StatResult.dir 0)])) = true ∧
    memberCount (fileListJson (buildList
      [("a.txt", StatResult.file 10), ("sub", StatResult.dir 0)])) = 2 :=
  ⟨rfl, rfl, rfl⟩

/-- Claim C5 as amended: every UPDATE_FILES payload is a JSON object
(keyed by the decimal listing index) with one member per entry retained
by the snapshot build, each member an object with fields name (string),
type (the string f or d) and size (integer). -/
theorem payload_object_of_entries (listing : List (String × StatResult)) :
    payloadShape (fileListJson (buildList listing)) = true ∧
    memberCount (fileListJson (buildList listing)) = (buildList listing).length := by
  constructor
  · have h := buildLoop_type_fd listing none 0 (Or.inl rfl)
    have hfun : (fun p : Nat × FileEntry => entryShape (entryJson p.2))
        = fun p => (p.2.type == "f" || p.2.type == "d") :=
      funext fun p => entryShape_entryJson p.2
    calc payloadShape (fileListJson (buildList listing))
        = (buildList listing).all fun p => entryShape (entryJson p.2) := by
          simp only [fileListJson, payloadShape, all_map_comp]
      _ = (buildList listing).all fun p => (p.2.type == "f" || p.2.type == "d") := by
          rw [hfun]
      _ = true := by rw [buildList]; exact h
  · simp [fileListJson, memberCount]

/-- Claim C6: the spec says an entry that is neither a plain file nor a
directory is skipped, but the loop variable type in prepareFileList is
function-scoped, so such an entry is included with the type left over
from the previous retained entry: a fifo listed after a plain file is
emitted with type f, while the same fifo listed alone is skipped. -/
theorem indeterminate_entry_inherits_stale_type :
    buildList [("a.txt", StatResult.file 10), ("fifo", StatResult.other 0)] =
      [(0, ⟨"a.txt", "f", 10⟩), (1, ⟨"fifo", "f", 0⟩)] ∧
    buildList [("fifo", StatResult.other 0)] = [] :=
  ⟨rfl, rfl⟩

/-- Claim C7 counterexample: the server error listener handles
EADDRINUSE by writing one log line; its action list contains no process
exit, so startup is not aborted and the process keeps running without a
bound server. -/
theorem bind_failure_no_exit :
    serverOnError "EADDRINUSE" = [StartAct.logMsg "Failed to bind to config.port"] ∧
    (serverOnError "EADDRINUSE").contains StartAct.exitProc = false := by
  constructor <;> rfl

/-- Claim C7 as amended: whatever the error code, the server error
listener only logs (a dedicated line for EADDRINUSE, the message and
stack via handleError otherwise) and never terminates the process. -/
theorem server_error_handler_never_exits (code : String) :
    (serverOnError code).contains StartAct.exitProc = false := by
  unfold serverOnError
  split <;> rfl

/-- Claim C8: for every non-negative byte count, convertToSI returns
the raw count suffixed with B below 1024, and otherwise divides by the
power of 1024 matching the value's range (KiB, MiB, GiB, TiB; TiB for
everything from 1024 to the fourth upward), rendered by toFixed(2) as a
string with exactly two digits after the decimal point. -/
theorem convertToSI_unit_selection (b : Nat) :
    (b < 1024 → convertToSI b = Nat.repr b ++ " B") ∧
    (1024 ≤ b →
      ∃ k, 1 ≤ k ∧ k ≤ 4 ∧ 1024 ^ k ≤ b ∧ (k = 4 ∨ b < 1024 ^ (k + 1)) ∧
        convertToSI b = toFixed2 b (1024 ^ k) ++ unitSuffix k ∧
        ∃ ip fp, toFixed2 b (1024 ^ k) = ip ++ "." ++ fp ∧ fp.length = 2) := by
  have hfp : ∀ den : Nat,
      ∃ ip fp, toFixed2 b den = ip ++ "." ++ fp ∧ fp.length = 2 := by
    intro den
    exact ⟨Nat.repr ((100 * b + den / 2) / den / 100),
      pad2 ((100 * b + den / 2) / den % 100), rfl,
      pad2_length _ (Nat.mod_lt _ (by norm_num))⟩
  constructor
  · intro h
    simp only [convertToSI, if_pos h]
  · intro h
    by_cases h1 : b < 1048576
    · refine ⟨1, by norm_num, by norm_num, by simpa using h,
        Or.inr (by norm_num; omega), ?_, by simpa using hfp 1024⟩
      simp only [convertToSI, unitSuffix, pow_one]
      rw [if_neg (by omega), if_pos ⟨h, h1⟩]
    · by_cases h2 : b < 1073741824
      · refine ⟨2, by norm_num, by norm_num, by norm_num; omega,
          Or.inr (by norm_num; omega), ?_, by
            have := hfp (1024 ^ 2)
            simpa using this⟩
        have e2 : (1024 : Nat) ^ 2 = 1048576 := by norm_num
        rw [e2]
        simp only [convertToSI, unitSuffix]
        rw [if_neg (by omega), if_neg (by omega), if_pos ⟨by omega, h2⟩]
      · by_cases h3 : b < 1099511627776
        · refine ⟨3, by norm_num, by norm_num, by norm_num; omega,
            Or.inr (by norm_num; omega), ?_, by
              have := hfp (1024 ^ 3)
              simpa using this⟩
          have e3 : (1024 : Nat) ^ 3 = 1073741824 := by norm_num
          rw [e3]
          simp only [convertToSI, unitSuffix]
          rw [if_neg (by omega), if_neg (by omega), if_neg (by omega),
            if_pos ⟨by omega, h3⟩]
        · refine ⟨4, by norm_num, by norm_num, by norm_num; omega,
            Or.inl rfl, ?_, by
              have := hfp (1024 ^ 4)
              simpa using this⟩
          have e4 : (1024 : Nat) ^ 4 = 1099511627776 := by norm_num
          rw [e4]
          simp only [convertToSI, unitSuffix]
          rw [if_neg (by omega), if_neg (by omega), if_neg (by omega),
            if_neg (by omega), if_pos (by omega)]

/-- Witness for claim C8: convertToSI at 500 bytes takes the raw-bytes
branch, and at 2621440 bytes selects a 1024-based unit with a
two-decimal rendering. -/
theorem convertToSI_unit_selection_witness :
    convertToSI 500 = Nat.repr 500 ++ " B" ∧
    (∃ k, 1 ≤ k ∧ k ≤ 4 ∧ 1024 ^ k ≤ 2621440 ∧ (k = 4 ∨ 2621440 < 1024 ^ (k + 1)) ∧
      convertToSI 2621440 = toFixed2 2621440 (1024 ^ k) ++ unitSuffix k ∧
      ∃ ip fp, toFixed2 2621440 (1024 ^ k) = ip ++ "." ++ fp ∧ fp.length = 2) :=
  ⟨(convertToSI_unit_selection 500).1 (by norm_num),
   (convertToSI_unit_selection 2621440).2 (by norm_num)⟩

/-- Claim C9: when the stat in handleFileRequest fails, the callback
writes the 500 response, ends it, logs and sends an update, but does
not return: control reaches the log line that reads stats.size, and
with stats undefined that access throws, so the error branch is not a
clean termination (a successful stat, by contrast, finishes without an
exception). -/
theorem file_request_stat_failure_falls_through :
    (handleFileStatCallback true none).1 =
      [FileAct.writeHead 500, FileAct.endRes, FileAct.logErrCall,
       FileAct.sendUpdateEmit] ∧
    (handleFileStatCallback true none).2 =
      some "TypeError: cannot read size of undefined" ∧
    (handleFileStatCallback false (some ⟨42⟩)).2 = none :=
  ⟨rfl, rfl, rfl⟩

/-- Claim C10: the CREATE_FOLDER handler passes the bare concatenation
of the configured directory and the client-supplied name to fs.mkdir,
with no validation: a name beginning with dot-dot-slash yields a path
that resolves outside the watched directory. -/
theorem create_folder_path_unsanitized :
    (∀ filesDir nm, createFolderPath filesDir nm = filesDir ++ nm) ∧
    createFolderPath "files/" "../evil" = "files/../evil" ∧
    resolvePath (createFolderPath "files/" "../evil") = ["evil"] ∧
    underDir (resolvePath "files/") (resolvePath (createFolderPath "files/" "../evil"))
      = false := by
  refine ⟨fun _ _ => rfl, rfl, by decide, by decide⟩
